import Mathlib

/-!
Shallow embedding of the connection-management core of the `lego-powered-up`
library (`src/lego-powered-up/src/lib.rs`): hub-type identification,
the facade's connect-with-retry loop, the Connection/Discovery Manager's
event loop, the Hub Registry's request handlers, and the wait-for-hub
race.  Rust `Result`s become `Except`, panics become an explicit
`PanicKind` error layer, channels become identifiers plus explicit lists
of sent values, and the two actor loops become pure step functions on
their state records.
-/

set_option autoImplicit false
set_option linter.unusedVariables false

namespace LegoPU

/-- Kinds of panic the embedded code can raise: out-of-bounds slice
indexing (`manufacturer_id[1]` in `identify`) and the
`unimplemented!()` arm of `connect_to_hub`. -/
inductive PanicKind where
  | indexOutOfBounds
  | unimplemented
deriving DecidableEq, Repr

/-- Hub kinds, from `consts::HubType` (used by `lib.rs`; the `consts`
module itself is outside `src/`, so the variant list is taken from the
uses in `lib.rs` and the spec). -/
inductive HubType where
  | Unknown
  | Wedo2SmartHub
  | MoveHub
  | Hub
  | RemoteControl
  | DuploTrainBase
  | Mario
  | TechnicMediumHub
deriving DecidableEq, Repr

/-- Bluetooth device address (`btleplug::api::BDAddr`), abstracted to a
numeric value with a printable form used by `HubFilter::Addr`. -/
structure BDAddr where
  val : Nat
deriving DecidableEq, Repr

/-- `BDAddr::to_string()`, used by `HubFilter::matches`. -/
def BDAddr.toStr (a : BDAddr) : String :=
  toString a.val

/-- `DiscoveredHub` record from `lib.rs`. -/
structure DiscoveredHub where
  hub_type : HubType
  addr : BDAddr
  name : String
deriving DecidableEq, Repr

/-- `HubFilter` from `lib.rs`: match a discovered hub by exact name or
by the string form of its address. -/
inductive HubFilter where
  | Name (n : String)
  | Addr (a : String)
deriving DecidableEq, Repr

/-- `HubFilter::matches` from `lib.rs`. -/
def HubFilter.matches (f : HubFilter) (hub : DiscoveredHub) : Bool :=
  match f with
  | .Name n => hub.name = n
  | .Addr a => hub.addr.toStr = a

/-- Advertised BLE service identifiers.  `lib.rs` tests membership of
two constants (`bleservice::WEDO2_SMART_HUB` and `bleservice::LPF2_HUB`,
from the `consts` module outside `src/`); every other service id is
modelled by `other`. -/
inductive ServiceUuid where
  | wedo2SmartHub
  | lpf2Hub
  | other (n : Nat)
deriving DecidableEq, Repr

/-- Manufacturer data of a BLE advertisement: vendor id keyed byte
payloads. -/
abbrev ManufacturerData := List (Nat × List Nat)

/-- Map lookup on manufacturer data (`props.manufacturer_data.get(&919)`
in `identify`); first matching key wins, as in a map with unique keys. -/
def mdLookup : ManufacturerData → Nat → Option (List Nat)
  | [], _ => none
  | (k, v) :: rest, key => if k = key then some v else mdLookup rest key

/-- The peripheral properties `identify` reads
(`btleplug::api::PeripheralProperties`, restricted to the fields the
embedded code uses). -/
structure PeripheralProperties where
  localName : Option String
  manufacturerData : ManufacturerData
  services : List ServiceUuid
deriving DecidableEq, Repr

/-- Modelled from the spec: `consts::BLEManufacturerData` is outside
`src/`; the spec describes it as "a closed code table at payload offset
1 mapping to hub kinds".  The six variants are those matched in
`identify` in `lib.rs`; the numeric codes follow the LEGO advertisement
convention (the worked example in the `lib.rs` comment has payload byte
1 = 128 for a TechnicMediumHub). -/
inductive BLEManufacturerData where
  | duploTrainBaseId
  | hubId
  | marioId
  | moveHubId
  | remoteControlId
  | technicMediumHubId
deriving DecidableEq, Repr

/-- Modelled from the spec: `BLEManufacturerData::from_u8` (via
`num_traits::FromPrimitive`), the closed code table at payload offset 1. -/
def BLEManufacturerData.from_u8 (n : Nat) : Option BLEManufacturerData :=
  if n = 32 then some .duploTrainBaseId
  else if n = 64 then some .moveHubId
  else if n = 65 then some .hubId
  else if n = 66 then some .remoteControlId
  else if n = 67 then some .marioId
  else if n = 128 then some .technicMediumHubId
  else none

/-- The match arm table inside `identify` in `lib.rs` mapping a decoded
manufacturer-data code to the resulting hub kind. -/
def hubTypeOfMData : BLEManufacturerData → HubType
  | .duploTrainBaseId => .DuploTrainBase
  | .hubId => .Hub
  | .marioId => .Mario
  | .moveHubId => .MoveHub
  | .remoteControlId => .RemoteControl
  | .technicMediumHubId => .TechnicMediumHub

/-- `IdentifyHub::identify` from `lib.rs` (lines 658-691).  The Rust
code indexes `manufacturer_id[1]` unconditionally; a payload shorter
than 2 bytes panics, modelled as `Except.error .indexOutOfBounds`. -/
def identify (props : PeripheralProperties) : Except PanicKind (Option HubType) :=
  if ServiceUuid.wedo2SmartHub ∈ props.services then
    .ok (some HubType.Wedo2SmartHub)
  else if ServiceUuid.lpf2Hub ∈ props.services then
    match mdLookup props.manufacturerData 919 with
    | some payload =>
      match payload[1]? with
      | none => .error PanicKind.indexOutOfBounds
      | some b =>
        match BLEManufacturerData.from_u8 b with
        | some m => .ok (some (hubTypeOfMData m))
        | none => .ok none
    | none => .ok none
  else .ok none

/-- C2: a peripheral advertising the WEDO2_SMART_HUB service id is
identified as `Wedo2SmartHub`, whatever its manufacturer data holds. -/
theorem identify_wedo2 (props : PeripheralProperties)
    (h : ServiceUuid.wedo2SmartHub ∈ props.services) :
    identify props = .ok (some HubType.Wedo2SmartHub) := by
  simp [identify, h]

/-- Witness for C2 at a concrete peripheral carrying unrelated
manufacturer data. -/
theorem identify_wedo2_witness :
    identify ⟨some "w", [(919, [0, 255])], [ServiceUuid.wedo2SmartHub]⟩ =
      .ok (some HubType.Wedo2SmartHub) :=
  identify_wedo2 ⟨some "w", [(919, [0, 255])], [ServiceUuid.wedo2SmartHub]⟩
    (by decide)

/-- C3: without the WEDO2 service id, identification on the LPF2 branch
maps the byte at offset 1 of the vendor-919 payload through the closed
code table (`none` for unknown codes); a missing vendor-919 entry, or
neither service id, yields no identification. -/
theorem identify_lpf2_table (props : PeripheralProperties)
    (hw : ServiceUuid.wedo2SmartHub ∉ props.services) :
    ((ServiceUuid.lpf2Hub ∈ props.services →
        (∀ payload b,
          mdLookup props.manufacturerData 919 = some payload →
          payload[1]? = some b →
          identify props =
            .ok ((BLEManufacturerData.from_u8 b).map hubTypeOfMData)) ∧
        (mdLookup props.manufacturerData 919 = none →
          identify props = .ok none)) ∧
      (ServiceUuid.lpf2Hub ∉ props.services → identify props = .ok none)) := by
  constructor
  · intro hl
    constructor
    · intro payload b hmd hb
      simp only [identify, if_neg hw, if_pos hl, hmd, hb]
      cases h : BLEManufacturerData.from_u8 b <;> simp [h]
    · intro hmd
      simp [identify, hw, hl, hmd]
  · intro hl
    simp [identify, hw, hl]

/-- Witness for C3 at a concrete LPF2 peripheral whose vendor-919
payload carries the TechnicMediumHub code at offset 1. -/
theorem identify_lpf2_table_witness :
    identify ⟨some "game", [(919, [0, 128, 6, 0, 97, 0])], [ServiceUuid.lpf2Hub]⟩ =
      .ok (some HubType.TechnicMediumHub) := by
  have h :=
    ((identify_lpf2_table
        ⟨some "game", [(919, [0, 128, 6, 0, 97, 0])], [ServiceUuid.lpf2Hub]⟩
        (by decide)).1 (by decide)).1 [0, 128, 6, 0, 97, 0] 128 rfl rfl
  simpa [BLEManufacturerData.from_u8, hubTypeOfMData] using h

/-- C10: `identify` is total exactly when every vendor-919 payload
reached on the LPF2 branch is at least 2 bytes long; a shorter payload
makes the unconditional offset-1 index panic instead of returning no
identification. -/
theorem identify_short_payload_panics (props : PeripheralProperties) :
    ((∀ payload,
        ServiceUuid.wedo2SmartHub ∉ props.services →
        ServiceUuid.lpf2Hub ∈ props.services →
        mdLookup props.manufacturerData 919 = some payload →
        2 ≤ payload.length) →
      ∃ r, identify props = .ok r) ∧
    (∀ payload,
      ServiceUuid.wedo2SmartHub ∉ props.services →
      ServiceUuid.lpf2Hub ∈ props.services →
      mdLookup props.manufacturerData 919 = some payload →
      payload.length < 2 →
      identify props = .error PanicKind.indexOutOfBounds) := by
  constructor
  · intro hpre
    by_cases hw : ServiceUuid.wedo2SmartHub ∈ props.services
    · exact ⟨some HubType.Wedo2SmartHub, by simp [identify, hw]⟩
    · by_cases hl : ServiceUuid.lpf2Hub ∈ props.services
      · cases hmd : mdLookup props.manufacturerData 919 with
        | none => exact ⟨none, by simp [identify, hw, hl, hmd]⟩
        | some payload =>
          have hlen : 2 ≤ payload.length := hpre payload hw hl hmd
          have hget : ∃ b, payload[1]? = some b := by
            cases hg : payload[1]? with
            | none =>
              rw [List.getElem?_eq_none_iff] at hg
              omega
            | some b => exact ⟨b, rfl⟩
          obtain ⟨b, hb⟩ := hget
          refine ⟨(BLEManufacturerData.from_u8 b).map hubTypeOfMData, ?_⟩
          simp only [identify, if_neg hw, if_pos hl, hmd, hb]
          cases h : BLEManufacturerData.from_u8 b <;> simp [h]
      · exact ⟨none, by simp [identify, hw, hl]⟩
  · intro payload hw hl hmd hlen
    have hb : payload[1]? = none := by
      rw [List.getElem?_eq_none_iff]
      omega
    simp [identify, hw, hl, hmd, hb]

/-- Witness for C10: a 1-byte vendor-919 payload on the LPF2 branch
panics. -/
theorem identify_short_payload_panics_witness :
    identify ⟨some "h", [(919, [0])], [ServiceUuid.lpf2Hub]⟩ =
      .error PanicKind.indexOutOfBounds :=
  (identify_short_payload_panics
      ⟨some "h", [(919, [0])], [ServiceUuid.lpf2Hub]⟩).2
    [0] (by decide) (by decide) rfl (by decide)

/-- `HubController` from `lib.rs`: a value handle carrying the hub's
address, kind, name, and (modelled as an identifier) the cloned request
channel to the Hub Registry. -/
structure HubController where
  addr : BDAddr
  hub_type : HubType
  name : String
  hub_manager_tx : Nat
deriving DecidableEq, Repr

/-- The retry bound of `PoweredUp::create_hub` (`let retries: usize = 10`). -/
def createHubRetries : Nat := 10

/-- The aggregate error `create_hub` returns on bound exhaustion
(`anyhow!("Unable to connect to {} after {} tries", hub.addr, retries)`). -/
inductive CreateHubError where
  | connectExhausted (addr : BDAddr) (tries : Nat)
deriving DecidableEq, Repr

/-- Observable run of `create_hub`: its returned outcome, the number of
`ConnectToHub` round trips issued, and the total seconds slept
(`sleep(Duration::from_secs(3))` after each failed attempt). -/
structure CreateHubRun where
  outcome : Except CreateHubError HubController
  attempts : Nat
  sleepSecs : Nat
deriving Repr

/-- The `for idx in 1..=retries` loop body of `create_hub`: `connect idx`
models the `ConnectToHub` round trip of attempt `idx`; on `Ok` the loop
returns the controller, on `Err` it logs, sleeps 3 seconds and moves to
the next attempt; after the last attempt the aggregate error is built. -/
def createHubGo (connect : Nat → Except String HubController) (addr : BDAddr) :
    Nat → Nat → CreateHubRun
  | _idx, 0 => ⟨.error (.connectExhausted addr createHubRetries), 0, 0⟩
  | idx, rem + 1 =>
    match connect idx with
    | .ok controller => ⟨.ok controller, 1, 0⟩
    | .error _ =>
      let rest := createHubGo connect addr (idx + 1) rem
      ⟨rest.outcome, rest.attempts + 1, rest.sleepSecs + 3⟩

/-- `PoweredUp::create_hub` from `lib.rs` (lines 132-159), with the
per-attempt `ConnectToHub` round trip abstracted as `connect`. -/
def create_hub (connect : Nat → Except String HubController)
    (hub : DiscoveredHub) : CreateHubRun :=
  createHubGo connect hub.addr 1 createHubRetries

lemma createHubGo_success (connect : Nat → Except String HubController)
    (addr : BDAddr) (c : HubController) :
    ∀ rem idx j, j < rem →
      (∀ i, idx ≤ i → i < idx + j → ∃ e, connect i = Except.error e) →
      connect (idx + j) = Except.ok c →
      createHubGo connect addr idx rem = ⟨Except.ok c, j + 1, 3 * j⟩ := by
  intro rem
  induction rem with
  | zero =>
    intro idx j hj
    exact absurd hj (Nat.not_lt_zero j)
  | succ rem ih =>
    intro idx j hj hfail hsucc
    cases j with
    | zero =>
      rw [Nat.add_zero] at hsucc
      simp [createHubGo, hsucc]
    | succ j =>
      obtain ⟨e, he⟩ := hfail idx (Nat.le_refl idx) (by omega)
      have hrec := ih (idx + 1) j (by omega)
        (fun i h1 h2 => hfail i (by omega) (by omega))
        (by rw [show idx + 1 + j = idx + (j + 1) by omega]; exact hsucc)
      simp only [createHubGo, he, hrec]
      refine congrArg₂ _ rfl ?_
      omega

lemma createHubGo_allFail (connect : Nat → Except String HubController)
    (addr : BDAddr) :
    ∀ rem idx,
      (∀ i, idx ≤ i → i < idx + rem → ∃ e, connect i = Except.error e) →
      createHubGo connect addr idx rem =
        ⟨Except.error (.connectExhausted addr createHubRetries), rem, 3 * rem⟩ := by
  intro rem
  induction rem with
  | zero =>
    intro idx hfail
    simp [createHubGo]
  | succ rem ih =>
    intro idx hfail
    obtain ⟨e, he⟩ := hfail idx (Nat.le_refl idx) (by omega)
    have hrec := ih (idx + 1) (fun i h1 h2 => hfail i (by omega) (by omega))
    simp only [createHubGo, he, hrec]
    refine congrArg₂ _ rfl ?_
    omega

/-- C1: `create_hub` succeeds on the k-th attempt with the controller
obtained there when the first k-1 `ConnectToHub` round trips fail
(having slept 3 seconds after each failure), and when every one of the
10 attempts fails it returns the aggregate error naming the hub's
address and the attempt count 10, after 10 attempts and 30 seconds of
inter-attempt sleeps. -/
theorem create_hub_retry_spec (connect : Nat → Except String HubController)
    (hub : DiscoveredHub) :
    (∀ k c, 1 ≤ k → k ≤ createHubRetries →
      (∀ i, 1 ≤ i → i < k → ∃ e, connect i = Except.error e) →
      connect k = Except.ok c →
      create_hub connect hub = ⟨Except.ok c, k, 3 * (k - 1)⟩) ∧
    ((∀ i, 1 ≤ i → i ≤ createHubRetries → ∃ e, connect i = Except.error e) →
      create_hub connect hub =
        ⟨Except.error (.connectExhausted hub.addr createHubRetries),
          createHubRetries, 3 * createHubRetries⟩) := by
  constructor
  · intro k c hk1 hk10 hfail hsucc
    have h := createHubGo_success connect hub.addr c createHubRetries 1 (k - 1)
      (by simp [createHubRetries] at hk10 ⊢; omega)
      (fun i h1 h2 => hfail i h1 (by omega))
      (by rw [show 1 + (k - 1) = k by omega]; exact hsucc)
    have hk : k - 1 + 1 = k := by omega
    rw [create_hub, h, hk]
  · intro hfail
    exact createHubGo_allFail connect hub.addr createHubRetries 1
      (fun i h1 h2 => hfail i h1 (by simp [createHubRetries] at h2 ⊢; omega))

/-- Witness for C1: with a connect primitive that always fails,
`create_hub` returns the aggregate error naming the address and 10
tries, after 10 attempts and 30 seconds slept. -/
theorem create_hub_retry_spec_witness :
    create_hub (fun _ => Except.error "connect refused")
        ⟨HubType.TechnicMediumHub, ⟨5⟩, "hub"⟩ =
      ⟨Except.error (CreateHubError.connectExhausted ⟨5⟩ 10), 10, 30⟩ :=
  (create_hub_retry_spec (fun _ => Except.error "connect refused")
      ⟨HubType.TechnicMediumHub, ⟨5⟩, "hub"⟩).2
    (fun i h1 h2 => ⟨"connect refused", rfl⟩)

/-- `HubNotificationParams` from `lib.rs`: the pending-wait slot's
single-use reply channel (modelled as an identifier) and optional
filter. -/
structure HubNotificationParams where
  response : Nat
  filter : Option HubFilter
deriving DecidableEq, Repr

/-- `PoweredUpInternalControlMessage` from `lib.rs`. -/
inductive ControlMessage where
  | stop
  | waitForHub (params : HubNotificationParams)

/-- The mutable state of `PoweredUpInternal`: the append-only discovery
log and the single pending-wait slot (the `adapter` field is not touched
by the embedded loop body). -/
structure PUInternalState where
  discoveredHubs : List DiscoveredHub
  hubNotifications : Option HubNotificationParams
deriving DecidableEq, Repr

/-- The `HubDiscovered(hub)` arm of `PoweredUpInternal::run`
(lines 298-322): take the pending-wait slot if occupied; send the hub
through its reply channel unless its filter rejects the hub, in which
case the slot is put back; in every case push the hub onto the
discovery log.  Returns the new state and the list of
(reply channel, value) sends performed. -/
def processHubDiscovered (st : PUInternalState) (hub : DiscoveredHub) :
    PUInternalState × List (Nat × DiscoveredHub) :=
  match st.hubNotifications with
  | some notify =>
    let send_it :=
      match notify.filter with
      | some filter => filter.matches hub
      | none => true
    if send_it then
      (⟨st.discoveredHubs ++ [hub], none⟩, [(notify.response, hub)])
    else
      (⟨st.discoveredHubs ++ [hub], some notify⟩, [])
  | none => (⟨st.discoveredHubs ++ [hub], none⟩, [])

/-- The control-message arm of `PoweredUpInternal::run` (lines 325-333):
`Stop` ends the loop (`none`), `WaitForHub(params)` stores the params in
the pending-wait slot.  No send on any reply channel is performed. -/
def processControl (st : PUInternalState) :
    ControlMessage → Option PUInternalState × List (Nat × DiscoveredHub)
  | .stop => (none, [])
  | .waitForHub params =>
    (some ⟨st.discoveredHubs, some params⟩, [])

/-- C4: on `HubDiscovered(hub)`, a stored PendingWait whose filter is
absent or matches gets `hub` on its reply channel and the slot is
cleared; a stored PendingWait whose filter rejects `hub` stays in the
slot with no send; and in every case `hub` is appended to the discovery
log. -/
theorem processHubDiscovered_spec (st : PUInternalState) (hub : DiscoveredHub) :
    (∀ notify, st.hubNotifications = some notify →
      (notify.filter = none ∨ ∃ f, notify.filter = some f ∧ f.matches hub = true) →
      processHubDiscovered st hub =
        (⟨st.discoveredHubs ++ [hub], none⟩, [(notify.response, hub)])) ∧
    (∀ notify f, st.hubNotifications = some notify →
      notify.filter = some f → f.matches hub = false →
      processHubDiscovered st hub =
        (⟨st.discoveredHubs ++ [hub], some notify⟩, [])) ∧
    (st.hubNotifications = none →
      processHubDiscovered st hub = (⟨st.discoveredHubs ++ [hub], none⟩, [])) ∧
    ((processHubDiscovered st hub).1.discoveredHubs = st.discoveredHubs ++ [hub]) := by
  refine ⟨?_, ?_, ?_, ?_⟩
  · intro notify hslot hacc
    rcases hacc with hnone | ⟨f, hf, hm⟩
    · simp [processHubDiscovered, hslot, hnone]
    · simp [processHubDiscovered, hslot, hf, hm]
  · intro notify f hslot hf hm
    simp [processHubDiscovered, hslot, hf, hm]
  · intro hslot
    simp [processHubDiscovered, hslot]
  · rcases hslot : st.hubNotifications with _ | notify
    · simp [processHubDiscovered, hslot]
    · rcases hf : notify.filter with _ | f
      · simp [processHubDiscovered, hslot, hf]
      · rcases hm : f.matches hub <;>
          simp [processHubDiscovered, hslot, hf, hm]

/-- Witness for C4 at a concrete state holding a name-filtered
PendingWait that the discovered hub matches. -/
theorem processHubDiscovered_spec_witness :
    processHubDiscovered
        ⟨[], some ⟨7, some (HubFilter.Name "game")⟩⟩
        ⟨HubType.TechnicMediumHub, ⟨9⟩, "game"⟩ =
      (⟨[⟨HubType.TechnicMediumHub, ⟨9⟩, "game"⟩], none⟩,
        [(7, ⟨HubType.TechnicMediumHub, ⟨9⟩, "game"⟩)]) :=
  (processHubDiscovered_spec
      ⟨[], some ⟨7, some (HubFilter.Name "game")⟩⟩
      ⟨HubType.TechnicMediumHub, ⟨9⟩, "game"⟩).1
    ⟨7, some (HubFilter.Name "game")⟩ rfl
    (Or.inr ⟨HubFilter.Name "game", rfl, by decide⟩)

/-- C9: a `WaitForHub` registration arriving while a PendingWait is
already stored silently replaces it: the step performs no send (so
nothing is ever sent on the earlier reply channel, which is dropped),
the slot now holds the new params, and every send any later discovery
performs goes to the new reply channel, never the earlier one. -/
theorem waitForHub_replaces_pending (st : PUInternalState)
    (old new : HubNotificationParams)
    (hslot : st.hubNotifications = some old) :
    processControl st (.waitForHub new) =
      (some ⟨st.discoveredHubs, some new⟩, []) ∧
    (∀ hub c h, old.response ≠ new.response →
      (c, h) ∈ (processHubDiscovered ⟨st.discoveredHubs, some new⟩ hub).2 →
      c ≠ old.response) := by
  constructor
  · rfl
  · intro hub c h hne hmem
    rcases hm : (match new.filter with
      | some filter => filter.matches hub
      | none => true) with _ | _
    · simp [processHubDiscovered, hm] at hmem
    · simp [processHubDiscovered, hm] at hmem
      rw [hmem.1]
      exact fun hc => hne (hc.symm)

/-- Witness for C9: the second registration overwrites the slot held by
channel 3's registration, and a following discovery sends only to
channel 4. -/
theorem waitForHub_replaces_pending_witness :
    processControl ⟨[], some ⟨3, none⟩⟩ (.waitForHub ⟨4, none⟩) =
      (some ⟨[], some ⟨4, none⟩⟩, []) ∧
    ∀ c h, (c, h) ∈ (processHubDiscovered ⟨[], some ⟨4, none⟩⟩
        ⟨HubType.MoveHub, ⟨2⟩, "m"⟩).2 → c ≠ 3 := by
  have h := waitForHub_replaces_pending ⟨[], some ⟨3, none⟩⟩ ⟨3, none⟩ ⟨4, none⟩ rfl
  exact ⟨h.1, fun c hh => h.2 ⟨HubType.MoveHub, ⟨2⟩, "m"⟩ c hh (by decide)⟩

/-- Which branch of the `tokio::select!` in
`wait_for_hub_filter_timeout_internal` completes first: the timer or the
reply channel. -/
inductive SelectWinner where
  | timer
  | reply (msg : DiscoveredHub)

/-- The error outcomes of the wait-for-hub operations: `bail!("Timeout
reached")` on timer expiry. -/
inductive WaitError where
  | timeout
deriving DecidableEq, Repr

/-- `PoweredUp::wait_for_hub_filter_timeout_internal` from `lib.rs`
(lines 189-216): send one `WaitForHub` registration carrying the reply
channel and filter, then race the reply against a timer of
`timeoutSecs`.  Returns the caller-visible outcome and the full list of
control messages the call sends to the Connection/Discovery Manager
(note: no retraction message follows on the timeout path — indeed no
retraction message exists in the control protocol). -/
def wait_for_hub_filter_timeout_internal (filter : Option HubFilter)
    (chan : Nat) (timeoutSecs : Nat) (winner : SelectWinner) :
    (Except WaitError DiscoveredHub) × List ControlMessage :=
  ((match winner with
    | .timer => .error .timeout
    | .reply msg => .ok msg),
   [ControlMessage.waitForHub ⟨chan, filter⟩])

/-- `PoweredUp::wait_for_hub` (lines 165-169): no filter, timer of 9999
seconds. -/
def wait_for_hub (chan : Nat) (winner : SelectWinner) :
    (Except WaitError DiscoveredHub) × List ControlMessage :=
  wait_for_hub_filter_timeout_internal none chan 9999 winner

/-- `PoweredUp::wait_for_hub_filter` (lines 171-178): caller's filter,
timer of 9999 seconds. -/
def wait_for_hub_filter (filter : HubFilter) (chan : Nat)
    (winner : SelectWinner) :
    (Except WaitError DiscoveredHub) × List ControlMessage :=
  wait_for_hub_filter_timeout_internal (some filter) chan 9999 winner

/-- C7: the no-timeout variants run the internal race with the fixed
9999-second default timer; when the timer wins the caller gets the
Timeout error, the only control message ever sent is the registration
itself (no retraction), and after the manager processes that
registration the PendingWait sits in the slot. -/
theorem wait_for_hub_timeout_spec (chan : Nat) (f : HubFilter)
    (winner : SelectWinner) (st : PUInternalState) :
    wait_for_hub chan winner =
      wait_for_hub_filter_timeout_internal none chan 9999 winner ∧
    wait_for_hub_filter f chan winner =
      wait_for_hub_filter_timeout_internal (some f) chan 9999 winner ∧
    (∀ filter timeoutSecs,
      wait_for_hub_filter_timeout_internal filter chan timeoutSecs .timer =
        (.error WaitError.timeout, [ControlMessage.waitForHub ⟨chan, filter⟩])) ∧
    (∀ filter,
      processControl st (.waitForHub ⟨chan, filter⟩) =
        (some ⟨st.discoveredHubs, some ⟨chan, filter⟩⟩, [])) := by
  exact ⟨rfl, rfl, fun _ _ => rfl, fun _ => rfl⟩

/-- Modelled from the spec: `hubs::Port`, the logical port
specification ("a physical connector on a hub, referenced by a logical
specification"); the `hubs` module is outside `src/`.  The claims here
never depend on particular variants. -/
inductive Port where
  | A
  | B
  | C
  | D
  | hubLed
  | otherPort (n : Nat)
deriving DecidableEq, Repr

/-- `hubs::PortMap`: the hub's static map port specification → physical
port id (a `u8`). -/
abbrev PortMap := List (Port × Nat)

/-- `port_map.get(&port)` lookup. -/
def portLookup : PortMap → Port → Option Nat
  | [], _ => none
  | (p, id) :: rest, port => if p = port then some id else portLookup rest port

/-- A live hub entry in the Hub Registry's map (`Box<dyn Hub>`): its
static port map plus the observable outcomes of its `disconnect` and
`send` primitives (the concrete hub state machines live outside
`src/`). -/
structure HubEntry where
  portMap : PortMap
  disconnectOk : Bool
  sendOk : Bool
deriving DecidableEq, Repr

/-- The Hub Registry's state: `HashMap<BDAddr, Box<dyn Hub>>`, as an
association list with unique keys maintained by `insertHub` /
`removeHub`. -/
abbrev HubMap := List (BDAddr × HubEntry)

/-- `hubs.get(&addr)`. -/
def lookupHub : HubMap → BDAddr → Option HubEntry
  | [], _ => none
  | (a, h) :: rest, addr => if a = addr then some h else lookupHub rest addr

/-- `hubs.remove(&addr)`: drop the entry keyed by `addr`. -/
def removeHub : HubMap → BDAddr → HubMap
  | [], _ => []
  | (a, h) :: rest, addr =>
    if a = addr then removeHub rest addr else (a, h) :: removeHub rest addr

/-- `hubs.insert(addr, entry)`: replace any entry keyed by `addr`. -/
def insertHub (hubs : HubMap) (addr : BDAddr) (entry : HubEntry) : HubMap :=
  (addr, entry) :: removeHub hubs addr

/-- Errors of the Hub Registry's request handlers, one constructor per
`anyhow!` message in `lib.rs`, carrying exactly the data the message
names: `noHubFound` is "No hub found for address {addr}" (GetPort /
SendToHub), `portNotFound` is "Port {port} does not exist on hub
{addr}", `hubNotRegistered` is "Hub not registered" (Disconnect); the
spec's taxonomy groups the first and third as UnknownHub and the second
as UnknownPort. -/
inductive HMError where
  | noHubFound (addr : BDAddr)
  | portNotFound (port : Port) (addr : BDAddr)
  | hubNotRegistered
  | disconnectFailed
  | sendFailed
deriving DecidableEq, Repr

/-- The device instance built by `devices::create_device(port_id, port,
addr, command_tx)`; modelled from the spec as the tuple of its
construction arguments (the `devices` module is outside `src/`). -/
structure Device where
  portId : Nat
  portType : Port
  addr : BDAddr
  tx : Nat
deriving DecidableEq, Repr

/-- `PortController` from `lib.rs`. -/
structure PortController where
  port_id : Nat
  port_type : Port
  device : Device
deriving DecidableEq, Repr

/-- The `GetPort(addr, port, response)` arm of `HubManager::run`
(lines 493-526). -/
def getPort (hubs : HubMap) (addr : BDAddr) (port : Port) (txChan : Nat) :
    Except HMError PortController :=
  match lookupHub hubs addr with
  | some hub =>
    match portLookup hub.portMap port with
    | some portId =>
      .ok ⟨portId, port, ⟨portId, port, addr, txChan⟩⟩
    | none => .error (.portNotFound port addr)
  | none => .error (.noHubFound addr)

/-- The `SendToHub(addr, msg, response)` arm of `HubManager::run`
(lines 528-539); the message payload does not influence the embedded
control flow, so the hub's send primitive is its `sendOk` outcome. -/
def sendToHub (hubs : HubMap) (addr : BDAddr) :
    Except HMError Unit :=
  match lookupHub hubs addr with
  | some hub => if hub.sendOk then .ok () else .error .sendFailed
  | none => .error (.noHubFound addr)

/-- `HubManager::disconnect` (lines 609-617): remove the entry
(`hubs.remove(&addr).context("Hub not registered")?`), then invoke its
disconnect primitive; the removal stands whatever the primitive
returns.  Returns the handler's reply and the map afterwards. -/
def disconnect (hubs : HubMap) (addr : BDAddr) :
    Except HMError Unit × HubMap :=
  match lookupHub hubs addr with
  | none => (.error .hubNotRegistered, hubs)
  | some hub =>
    ((if hub.disconnectOk then .ok () else .error .disconnectFailed),
      removeHub hubs addr)

lemma lookupHub_removeHub (hubs : HubMap) (addr : BDAddr) :
    lookupHub (removeHub hubs addr) addr = none := by
  induction hubs with
  | nil => rfl
  | cons hd tl ih =>
    obtain ⟨a, h⟩ := hd
    by_cases ha : a = addr
    · simpa [removeHub, ha] using ih
    · simpa [removeHub, lookupHub, ha] using ih

/-- C5: `GetPort` replies UnknownHub ("No hub found for address A")
when no live entry exists for the address, UnknownPort naming both the
port and the address when the live hub's port map lacks the port, and
otherwise a `PortController` for the mapped physical port id wrapping
the device built from (port id, port, address, request channel). -/
theorem getPort_spec (hubs : HubMap) (addr : BDAddr) (port : Port)
    (txChan : Nat) :
    (lookupHub hubs addr = none →
      getPort hubs addr port txChan = .error (.noHubFound addr)) ∧
    (∀ hub, lookupHub hubs addr = some hub →
      portLookup hub.portMap port = none →
      getPort hubs addr port txChan = .error (.portNotFound port addr)) ∧
    (∀ hub portId, lookupHub hubs addr = some hub →
      portLookup hub.portMap port = some portId →
      getPort hubs addr port txChan =
        .ok ⟨portId, port, ⟨portId, port, addr, txChan⟩⟩) := by
  refine ⟨?_, ?_, ?_⟩
  · intro h
    simp [getPort, h]
  · intro hub hh hp
    simp [getPort, hh, hp]
  · intro hub portId hh hp
    simp [getPort, hh, hp]

/-- Witness for C5: on a one-hub map, an unknown address yields
UnknownHub, a missing port yields UnknownPort naming port and address,
and the mapped port yields its controller. -/
theorem getPort_spec_witness :
    getPort [(⟨1⟩, ⟨[(Port.A, 0)], true, true⟩)] ⟨2⟩ Port.A 0 =
      .error (.noHubFound ⟨2⟩) ∧
    getPort [(⟨1⟩, ⟨[(Port.A, 0)], true, true⟩)] ⟨1⟩ Port.B 0 =
      .error (.portNotFound Port.B ⟨1⟩) ∧
    getPort [(⟨1⟩, ⟨[(Port.A, 0)], true, true⟩)] ⟨1⟩ Port.A 0 =
      .ok ⟨0, Port.A, ⟨0, Port.A, ⟨1⟩, 0⟩⟩ :=
  ⟨(getPort_spec [(⟨1⟩, ⟨[(Port.A, 0)], true, true⟩)] ⟨2⟩ Port.A 0).1 rfl,
   (getPort_spec [(⟨1⟩, ⟨[(Port.A, 0)], true, true⟩)] ⟨1⟩ Port.B 0).2.1
     ⟨[(Port.A, 0)], true, true⟩ rfl rfl,
   (getPort_spec [(⟨1⟩, ⟨[(Port.A, 0)], true, true⟩)] ⟨1⟩ Port.A 0).2.2
     ⟨[(Port.A, 0)], true, true⟩ 0 rfl rfl⟩

/-- C6: `Disconnect(A)` replies UnknownHub ("Hub not registered") and
leaves the map unchanged when no live entry exists for A; otherwise A's
entry is removed from the map whether or not the hub's disconnect
primitive succeeds, so every later `GetPort(A, _)` or `SendToHub(A, _)`
against the resulting map replies UnknownHub. -/
theorem disconnect_spec (hubs : HubMap) (addr : BDAddr) :
    (lookupHub hubs addr = none →
      disconnect hubs addr = (.error .hubNotRegistered, hubs)) ∧
    (∀ hub, lookupHub hubs addr = some hub →
      (disconnect hubs addr).2 = removeHub hubs addr ∧
      lookupHub (disconnect hubs addr).2 addr = none ∧
      (∀ port txChan,
        getPort (disconnect hubs addr).2 addr port txChan =
          .error (.noHubFound addr)) ∧
      sendToHub (disconnect hubs addr).2 addr = .error (.noHubFound addr)) := by
  constructor
  · intro h
    simp [disconnect, h]
  · intro hub hh
    have h2 : (disconnect hubs addr).2 = removeHub hubs addr := by
      simp [disconnect, hh]
    have hnone : lookupHub (disconnect hubs addr).2 addr = none := by
      rw [h2]
      exact lookupHub_removeHub hubs addr
    refine ⟨h2, hnone, ?_, ?_⟩
    · intro port txChan
      simp [getPort, hnone]
    · simp [sendToHub, hnone]

/-- Witness for C6: disconnecting the sole hub (whose disconnect
primitive fails) still removes it, and a following GetPort and
SendToHub reply UnknownHub. -/
theorem disconnect_spec_witness :
    (disconnect [(⟨1⟩, ⟨[(Port.A, 0)], false, true⟩)] ⟨1⟩).2 = [] ∧
    getPort (disconnect [(⟨1⟩, ⟨[(Port.A, 0)], false, true⟩)] ⟨1⟩).2 ⟨1⟩
        Port.A 0 = .error (.noHubFound ⟨1⟩) ∧
    sendToHub (disconnect [(⟨1⟩, ⟨[(Port.A, 0)], false, true⟩)] ⟨1⟩).2 ⟨1⟩ =
      .error (.noHubFound ⟨1⟩) := by
  have h := (disconnect_spec [(⟨1⟩, ⟨[(Port.A, 0)], false, true⟩)] ⟨1⟩).2
    ⟨[(Port.A, 0)], false, true⟩ rfl
  exact ⟨h.1, h.2.2.1 Port.A 0, h.2.2.2⟩

/-- BLE characteristic identifiers: `connect_to_hub` searches the
enumerated characteristics for the one fixed control characteristic
(`blecharacteristic::LPF2_ALL`, a constant from the `consts` module
outside `src/`); every other uuid is modelled by `otherChar`. -/
inductive CharUuid where
  | lpf2All
  | otherChar (n : Nat)
deriving DecidableEq, Repr

/-- The error paths of `HubManager::connect_to_hub`, one constructor per
fallible step in source order: peripheral lookup (`.context("")?`),
`connect()?`, `discover_characteristics()?`, the LPF2_ALL search
(`.context("Device does not advertise LPF2_ALL characteristic")?`),
`subscribe(&lpf_char)?`, and `TechnicHub::init(...)?`. -/
inductive ConnErr where
  | peripheralNotFound
  | connectFailed
  | charDiscoveryFailed
  | characteristicMissing
  | subscribeFailed
  | initFailed
deriving DecidableEq, Repr

/-- The behaviour of one peripheral as `connect_to_hub` observes it: its
advertised properties and the outcomes of `connect`,
`discover_characteristics`, `subscribe`, and (modelled from the spec:
the per-hub-kind initializer `hubs::TechnicHub::init` is outside `src/`)
the hub instance the initializer would produce. -/
structure PeripheralModel where
  props : PeripheralProperties
  connectOk : Bool
  charsResult : Option (List CharUuid)
  subscribeOk : Bool
  initResult : Option HubEntry
deriving DecidableEq, Repr

/-- The `(hub_type, name)` resolution step of `connect_to_hub`
(lines 562-570): trust the caller-supplied kind and name unless the
kind is the `Unknown` sentinel, in which case re-run `identify`
(falling back to `Unknown` / empty name); `identify`'s panic
propagates. -/
def resolveHubType (p : PeripheralModel) (hub : DiscoveredHub) :
    Except PanicKind (HubType × String) :=
  if hub.hub_type = HubType.Unknown then
    match identify p.props with
    | .error pk => .error pk
    | .ok r => .ok (r.getD HubType.Unknown, p.props.localName.getD "")
  else .ok (hub.hub_type, hub.name)

/-- `HubManager::connect_to_hub` from `lib.rs` (lines 550-607):
peripheral lookup, connect, characteristic discovery, kind resolution,
LPF2_ALL search, subscribe, then the kind dispatch — `TechnicMediumHub`
runs the initializer and stores the entry under the hub's address, every
other kind hits `unimplemented!()` (a panic, not an error reply).
Returns the panic-or-reply outcome together with the registry map
afterwards. -/
def connect_to_hub (peripheral : Option PeripheralModel)
    (hub : DiscoveredHub) (hubs : HubMap) (txChan : Nat) :
    Except PanicKind ((Except ConnErr HubController) × HubMap) :=
  match peripheral with
  | none => .ok (.error .peripheralNotFound, hubs)
  | some p =>
    if !p.connectOk then .ok (.error .connectFailed, hubs)
    else match p.charsResult with
    | none => .ok (.error .charDiscoveryFailed, hubs)
    | some chars =>
      match resolveHubType p hub with
      | .error pk => .error pk
      | .ok (hubType, name) =>
        if !(CharUuid.lpf2All ∈ chars) then
          .ok (.error .characteristicMissing, hubs)
        else if !p.subscribeOk then .ok (.error .subscribeFailed, hubs)
        else
          match hubType with
          | HubType.TechnicMediumHub =>
            match p.initResult with
            | none => .ok (.error .initFailed, hubs)
            | some entry =>
              .ok (.ok ⟨hub.addr, hubType, name, txChan⟩,
                insertHub hubs hub.addr entry)
          | _ => .error PanicKind.unimplemented

/-- C8: once the flow reaches the kind dispatch (lookup, connect,
characteristic discovery, LPF2_ALL search and subscribe all succeed and
the kind is resolved), a resolved kind other than `TechnicMediumHub`
panics via `unimplemented!()` instead of replying an error, while
`TechnicMediumHub` with a successful initializer replies the controller
and stores the entry. -/
theorem connect_to_hub_dispatch (p : PeripheralModel) (hub : DiscoveredHub)
    (hubs : HubMap) (txChan : Nat) (chars : List CharUuid)
    (t : HubType) (name : String)
    (hconn : p.connectOk = true)
    (hchars : p.charsResult = some chars)
    (hlpf : CharUuid.lpf2All ∈ chars)
    (hsub : p.subscribeOk = true)
    (hres : resolveHubType p hub = .ok (t, name)) :
    (t ≠ HubType.TechnicMediumHub →
      connect_to_hub (some p) hub hubs txChan =
        .error PanicKind.unimplemented) ∧
    (∀ entry, t = HubType.TechnicMediumHub → p.initResult = some entry →
      connect_to_hub (some p) hub hubs txChan =
        .ok (.ok ⟨hub.addr, t, name, txChan⟩, insertHub hubs hub.addr entry)) := by
  constructor
  · intro ht
    cases t <;>
      simp_all [connect_to_hub, hconn, hchars, hres, hlpf, hsub]
  · intro entry ht hinit
    subst ht
    simp [connect_to_hub, hconn, hchars, hres, hlpf, hsub, hinit]

/-- Witness for C8: a trusted `MoveHub` discovery whose peripheral
passes every earlier step panics at the dispatch. -/
theorem connect_to_hub_dispatch_witness :
    connect_to_hub
        (some ⟨⟨some "m", [], [ServiceUuid.lpf2Hub]⟩, true,
          some [CharUuid.lpf2All], true, none⟩)
        ⟨HubType.MoveHub, ⟨8⟩, "m"⟩ [] 0 =
      .error PanicKind.unimplemented :=
  (connect_to_hub_dispatch
      ⟨⟨some "m", [], [ServiceUuid.lpf2Hub]⟩, true,
        some [CharUuid.lpf2All], true, none⟩
      ⟨HubType.MoveHub, ⟨8⟩, "m"⟩ [] 0 [CharUuid.lpf2All]
      HubType.MoveHub "m" rfl rfl (by decide) rfl rfl).1
    (by decide)

end LegoPU
